import Mathlib

/-
  Verification of the SimulaAI real-time training session controller
  against its natural-language specification.

  The embedding below is a shallow model of the client logic in the
  source file (the `SimulationLayout` and `DashboardContainer`
  components): the two-phase edit pipeline `handleRefineSubmit`, and the
  WebSocket connection / telemetry-ingestion state machine formed by the
  connection `useEffect`, the `onopen` / `onmessage` handlers, and the
  run-state `useEffect`.  JSON numeric payloads are modelled as `Int`
  (no claim inspects their arithmetic); JSON string payloads as
  `String`.
-/

namespace SimulaAI

/-! ## Edit pipeline (handleRefineSubmit) -/

/-- Shape of the simulation object received from the API
    (`interface Simulation`). -/
structure Simulation where
  simulation_id : String
  model_xml : String
  xml_key : String
deriving DecidableEq

/-- An edit operation.  The client forwards edits unmodified from the
    plan response to the apply request and never inspects them, so the
    payload is opaque here. -/
abbrev Edit := String

/-- Outcome of the `plan_edits` fetch as seen by the client:
    either a non-2xx HTTP response (`!planResponse.ok`), or a parsed
    JSON body whose `edits` field may be absent (`none`). -/
inductive PlanResponse where
  | httpError
  | ok (edits : Option (List Edit))
deriving DecidableEq

/-- Outcome of the `apply_edits` fetch as seen by the client: either a
    non-2xx HTTP response, or a parsed body carrying `simulation_id`,
    `model_xml`, and the rotated revision key the server reports.  The
    source reads only `simulation_id` and `model_xml` from the body. -/
inductive ApplyResponse where
  | httpError
  | ok (simulation_id : String) (model_xml : String) (xml_key : String)
deriving DecidableEq

/-- The `SimulationLayout` state touched by `handleRefineSubmit`:
    `currentSim`, `isRefining`, `resetTrigger`. -/
structure RefineState where
  currentSim : Simulation
  isRefining : Bool
  resetTrigger : Nat
deriving DecidableEq

/-- Result of one `handleRefineSubmit` invocation: the final component
    state together with the request bodies sent to `plan_edits`
    (prompt, xml_key) and to `apply_edits` (xml_key, edits). -/
structure RefineOutcome where
  state : RefineState
  planRequests : List (String × String)
  applyRequests : List (String × List Edit)
deriving DecidableEq

/-- The emptiness test `!plan.edits || plan.edits.length === 0`. -/
def emptyPlan : Option (List Edit) → Bool
  | none => true
  | some es => es.isEmpty

/-- One complete run of `handleRefineSubmit` given the prompt text and
    the responses the two fetches would receive.  Mirrors the source:
    the guard `if (!prompt || isRefining) return`, the plan fetch, the
    empty-plan early return, the apply fetch, the `setCurrentSim` call
    that keeps `currentSim.xml_key`, the `setResetTrigger` bump, and
    the `finally setIsRefining(false)`. -/
def handleRefineSubmit (st : RefineState) (prompt : String)
    (planResp : PlanResponse) (applyResp : ApplyResponse) : RefineOutcome :=
  if prompt = "" ∨ st.isRefining then ⟨st, [], []⟩
  else
    let st1 : RefineState := { st with isRefining := true }
    let planReq := (prompt, st1.currentSim.xml_key)
    match planResp with
    | .httpError =>
        -- throw inside try, caught, finally clears isRefining
        ⟨{ st1 with isRefining := false }, [planReq], []⟩
    | .ok edits =>
        if emptyPlan edits then
          -- "No edits planned by LLM." : early return, no apply fetch
          ⟨{ st1 with isRefining := false }, [planReq], []⟩
        else
          let es := edits.getD []
          let applyReq := (st1.currentSim.xml_key, es)
          match applyResp with
          | .httpError =>
              ⟨{ st1 with isRefining := false }, [planReq], [applyReq]⟩
          | .ok sid xml _newKey =>
              ⟨{ currentSim :=
                   { simulation_id := sid
                     model_xml := xml
                     xml_key := st1.currentSim.xml_key }
                 isRefining := false
                 resetTrigger := st1.resetTrigger + 1 },
                [planReq], [applyReq]⟩

/-! ## Connection and telemetry state machine (DashboardContainer) -/

/-- One point of the telemetry series (the parsed `newDataPoint` object
    the source appends to `data`). -/
structure TelemetryPoint where
  episode : Int
  reward : Int
  length : Int
deriving DecidableEq

/-- `getInitialData()` from the source: the seed series. -/
def getInitialData : List TelemetryPoint :=
  [{ episode := 0, reward := 0, length := 0 }]

/-- A parsed inbound JSON frame, with the fields the `onmessage`
    handler inspects.  A field absent from the JSON object is `none`. -/
structure ParsedFrame where
  episode : Option Int
  reward : Int
  length : Int
  status : Option String
  error : Option String
deriving DecidableEq

/-- An inbound frame: either `JSON.parse` throws, or it yields a
    parsed object. -/
inductive Frame where
  | malformed
  | parsed (p : ParsedFrame)
deriving DecidableEq

/-- JavaScript truthiness of the optional string payload in
    `else if (newDataPoint.error)`: present and non-empty. -/
def truthy : Option String → Bool
  | none => false
  | some s => s ≠ ""

/-- WebSocket readiness of the socket held in `ws.current`.  A closed
    socket fires no further events. -/
inductive ReadyState where
  | connecting
  | opened
  | closed
deriving DecidableEq

/-- A command frame sent on the wire, tagged with the id of the socket
    instance it was sent on.  `command` is the value of the JSON
    `command` field ("run" or "pause"). -/
structure SentFrame where
  inst : Nat
  command : String
deriving DecidableEq

/-- The state of `SimulationLayout` + `DashboardContainer` relevant to
    the connection and telemetry logic.  Socket instances are numbered
    in creation order; only the socket in `ws.current` can be
    non-closed (every superseded socket has been closed by the effect
    cleanup), so one `currentState` / `capturedRunning` pair suffices.
    `capturedRunning` is the value of `isRunning` captured by the
    closure of the connection effect that created the current socket
    (its deps are `[simulationId, resetTrigger]`, so the closure is not
    refreshed when `isRunning` changes). -/
structure SysState where
  simulationId : String
  isRunning : Bool
  data : List TelemetryPoint
  statusMessage : String
  nextId : Nat
  current : Option Nat
  currentState : ReadyState
  capturedRunning : Bool
  sent : List SentFrame
deriving DecidableEq

/-- Status message shown while ingesting episode `e`. -/
def episodeMsg (e : Int) : String :=
  "Training... Episode: " ++ toString e

/-- The run-state `useEffect` body (deps `[isRunning]`): if the current
    socket is OPEN, send the command for the current `isRunning`. -/
def sendRunCommand (st : SysState) : SysState :=
  match st.current with
  | some c =>
      if st.currentState = .opened then
        { st with sent := st.sent ++
            [{ inst := c, command := if st.isRunning then "run" else "pause" }] }
      else st
  | none => st

/-- `setIsRunning(false)` issued from a terminal branch of `onmessage`,
    together with the status message set there.  The run-state effect
    re-runs only when the `isRunning` value actually changed. -/
def stopRunning (st : SysState) (msg : String) : SysState :=
  if st.isRunning then
    sendRunCommand { st with isRunning := false, statusMessage := msg }
  else
    { st with statusMessage := msg }

/-- The body of the `onmessage` handler, applied to a delivered frame.
    Parse failure is caught and logged with no state change.  On a
    parsed object the branches are checked in source order:
    `episode !== undefined` first (append to `data`), then
    `status === "complete"`, then a truthy `error`. -/
def ingest (st : SysState) (f : Frame) : SysState :=
  match f with
  | .malformed => st
  | .parsed p =>
      match p.episode with
      | some e =>
          { st with
            data := st.data ++ [{ episode := e, reward := p.reward, length := p.length }]
            statusMessage := episodeMsg e }
      | none =>
          if p.status = some "complete" then
            stopRunning st "Training Complete!"
          else if truthy p.error then
            stopRunning st ("Error: " ++ p.error.getD "")
          else st

/-- The body of the connection `useEffect` (deps
    `[simulationId, resetTrigger]`), preceded by the cleanup of the
    previous run which closes the previous socket.  If `simulationId`
    is empty the body returns before resetting anything; otherwise it
    resets `data` and the status message and creates a fresh CONNECTING
    socket whose handlers capture the current `isRunning`. -/
def runConnectEffect (st : SysState) : SysState :=
  let st0 : SysState := { st with currentState := .closed }
  if st0.simulationId = "" then st0
  else
    { st0 with
      data := getInitialData
      statusMessage := "Connecting to training server..."
      current := some st0.nextId
      nextId := st0.nextId + 1
      currentState := .connecting
      capturedRunning := st0.isRunning }

/-- External events driving the machine.  `attach` models a change of
    the `simulationId` prop, `reset` a `resetTrigger` bump; both re-run
    the connection effect (React re-runs it only when a dep changed,
    hence the equality guard on `attach`).  Socket events are tagged
    with the instance they fire on; a closed socket fires none.
    `setRunning` is a user click on Run/Pause.  The `onclose` handler
    only adjusts the status message and is subsumed by the cleanup
    close, so it is not a separate event. -/
inductive Event where
  | attach (id : String)
  | reset
  | wsOpen (i : Nat)
  | wsMessage (i : Nat) (f : Frame)
  | wsError (i : Nat)
  | setRunning (b : Bool)

/-- One step of the machine. -/
def step (st : SysState) (e : Event) : SysState :=
  match e with
  | .attach id =>
      if id = st.simulationId then st
      else runConnectEffect { st with simulationId := id }
  | .reset => runConnectEffect st
  | .wsOpen i =>
      if st.current = some i ∧ st.currentState = .connecting then
        -- onopen: status message, then re-assert the captured run state
        { st with
          currentState := .opened
          statusMessage := "Training started..."
          sent := st.sent ++
            [{ inst := i
               command := if st.capturedRunning then "run" else "pause" }] }
      else st
  | .wsMessage i f =>
      if st.current = some i ∧ st.currentState = .opened then ingest st f
      else st
  | .wsError i =>
      if st.current = some i ∧ ¬ st.currentState = .closed then
        { st with statusMessage := "Connection error. Is the server running?" }
      else st
  | .setRunning b =>
      -- setIsRunning(b); the run-state effect re-runs only on change
      if b = st.isRunning then st
      else sendRunCommand { st with isRunning := b }

/-- Run a sequence of events. -/
def run (st : SysState) (es : List Event) : SysState :=
  List.foldl step st es

/-- Mount of `DashboardContainer` for a given simulation id: initial
    `useState` values, then the first run of the connection effect.
    `isSimRunning` starts `true` in `SimulationLayout`. -/
def initialSys (id : String) : SysState :=
  runConnectEffect
    { simulationId := id
      isRunning := true
      data := getInitialData
      statusMessage := "Connecting to training server..."
      nextId := 0
      current := none
      currentState := .closed
      capturedRunning := true
      sent := [] }

/-- Frame carrying a telemetry point (episode field present). -/
def pointFrame (p : TelemetryPoint) : Frame :=
  .parsed { episode := some p.episode, reward := p.reward, length := p.length,
            status := none, error := none }

/-- The terminal completion frame `\x7b"status":"complete"\x7d`. -/
def completeFrame : Frame :=
  .parsed { episode := none, reward := 0, length := 0,
            status := some "complete", error := none }

/-! ## Concrete scenarios used by counterexamples and witnesses -/

/-- A refine state as created by a successful `generate` call. -/
def c3pre : RefineState :=
  { currentSim :=
      { simulation_id := "sim-1", model_xml := "<mujoco0/>", xml_key := "key-0" }
    isRefining := false
    resetTrigger := 0 }

/-- A refine call on `c3pre` whose plan is non-empty and whose apply
    succeeds, the server rotating the revision key to "key-1". -/
def c3out : RefineOutcome :=
  handleRefineSubmit c3pre "make the legs stronger"
    (.ok (some ["edit-1"])) (.ok "sim-2" "<mujoco1/>" "key-1")

/-- The telemetry frames of the specification example, with episode
    values [0,1,1,3,2,4]. -/
def c1frames : List TelemetryPoint :=
  [ { episode := 0, reward := 0, length := 10 }
  , { episode := 1, reward := 5, length := 12 }
  , { episode := 1, reward := 5, length := 12 }
  , { episode := 3, reward := 7, length := 9 }
  , { episode := 2, reward := 6, length := 11 }
  , { episode := 4, reward := 8, length := 13 } ]

/-- Mount, open, then deliver the example frames. -/
def c1state : SysState :=
  run (initialSys "sim-1")
    (Event.wsOpen 0 :: c1frames.map fun p => Event.wsMessage 0 (pointFrame p))

/-- Mount, open, deliver a completion frame, then an episode frame. -/
def c2state : SysState :=
  run (initialSys "sim-1")
    [ .wsOpen 0
    , .wsMessage 0 completeFrame
    , .wsMessage 0 (pointFrame { episode := 2, reward := 5, length := 12 }) ]

/-- Mount, pause while the socket is still CONNECTING, then the socket
    opens. -/
def c7state : SysState :=
  run (initialSys "sim-1") [.setRunning false, .wsOpen 0]

/-- Mount, open, ingest one point, then an explicit reset. -/
def c8state : SysState :=
  step (run (initialSys "sim-1")
    [.wsOpen 0, .wsMessage 0 (pointFrame { episode := 1, reward := 5, length := 12 })]) .reset

/-- Mount and open, with the run state still the initial Run. -/
def c10state : SysState :=
  run (initialSys "sim-1") [.wsOpen 0]

/-- A parsed frame whose `error` field is present but holds the empty
    string (falsy in JavaScript). -/
def errorEmptyFrame : Frame :=
  .parsed { episode := none, reward := 0, length := 0, status := none, error := some "" }

/-- Boolean check that a list of episode values is non-decreasing. -/
def nondecreasingB : List Int → Bool
  | a :: b :: rest => (decide (a ≤ b)) && nondecreasingB (b :: rest)
  | _ => true

/-- An id `o` names a stale socket instance in state `s`: it was
    allocated earlier and is no longer the current socket (hence it was
    closed by the effect cleanup and fires no events). -/
def StaleId (o : Nat) (s : SysState) : Prop :=
  o < s.nextId ∧ ¬ s.current = some o

/-! ## Helper lemmas -/

/-- Whenever the guard admits a call, exactly one `plan_edits` request
    is issued and it carries the current revision key. -/
theorem planRequests_of_accepted (st : RefineState) (p : String)
    (pr : PlanResponse) (ar : ApplyResponse)
    (hp : ¬ p = "") (hr : st.isRefining = false) :
    (handleRefineSubmit st p pr ar).planRequests = [(p, st.currentSim.xml_key)] := by
  cases pr with
  | httpError => simp [handleRefineSubmit, hp, hr]
  | ok edits =>
      cases ar <;> by_cases he : emptyPlan edits <;>
        simp [handleRefineSubmit, hp, hr, he]

/-! ## Claims C3 to C6: the edit pipeline -/

/-- C5: a refine call issued while a previous one is unresolved
    (`isRefining` still set) is rejected synchronously: no plan or
    apply request is made and the state is unchanged. -/
theorem c5_guard (st : RefineState) (prompt : String)
    (pr : PlanResponse) (ar : ApplyResponse) (h : st.isRefining = true) :
    handleRefineSubmit st prompt pr ar = ⟨st, [], []⟩ := by
  simp [handleRefineSubmit, h]

/-- Witness for C5 at a concrete in-flight state. -/
theorem c5_guard_witness :
    ({ c3pre with isRefining := true } : RefineState).isRefining = true ∧
    handleRefineSubmit { c3pre with isRefining := true } "again" .httpError .httpError =
      ⟨{ c3pre with isRefining := true }, [], []⟩ :=
  ⟨rfl, c5_guard _ "again" .httpError .httpError rfl⟩

/-- C4: a non-2xx apply response leaves `currentSim` (both the revision
    key and the document) exactly as before, does not trigger a reset,
    returns the pipeline to idle, and a subsequent refine call is
    accepted and plans against the unchanged key. -/
theorem c4_apply_error (st : RefineState) (prompt : String) (es : List Edit)
    (hp : ¬ prompt = "") (hr : st.isRefining = false) (hne : ¬ es = []) :
    (handleRefineSubmit st prompt (.ok (some es)) .httpError).state.currentSim = st.currentSim ∧
    (handleRefineSubmit st prompt (.ok (some es)) .httpError).state.isRefining = false ∧
    (handleRefineSubmit st prompt (.ok (some es)) .httpError).state.resetTrigger = st.resetTrigger ∧
    (∀ p2 pr ar, ¬ p2 = "" →
      (handleRefineSubmit
        (handleRefineSubmit st prompt (.ok (some es)) .httpError).state p2 pr ar).planRequests =
        [(p2, st.currentSim.xml_key)]) := by
  cases es with
  | nil => exact absurd rfl hne
  | cons a as =>
      have hstate :
          (handleRefineSubmit st prompt (.ok (some (a :: as))) .httpError).state =
            { st with isRefining := false } := by
        simp [handleRefineSubmit, hp, hr, emptyPlan]
      refine ⟨by rw [hstate], by rw [hstate], by rw [hstate], ?_⟩
      intro p2 pr ar hp2
      rw [hstate]
      exact planRequests_of_accepted { st with isRefining := false } p2 pr ar hp2 rfl

/-- Witness for C4 at a concrete state and responses. -/
theorem c4_apply_error_witness :
    ¬ "tweak" = "" ∧ c3pre.isRefining = false ∧ ¬ ["edit-1"] = ([] : List Edit) ∧
    ((handleRefineSubmit c3pre "tweak" (.ok (some ["edit-1"])) .httpError).state.currentSim = c3pre.currentSim ∧
     (handleRefineSubmit c3pre "tweak" (.ok (some ["edit-1"])) .httpError).state.isRefining = false ∧
     (handleRefineSubmit c3pre "tweak" (.ok (some ["edit-1"])) .httpError).state.resetTrigger = c3pre.resetTrigger ∧
     (∀ p2 pr ar, ¬ p2 = "" →
       (handleRefineSubmit
         (handleRefineSubmit c3pre "tweak" (.ok (some ["edit-1"])) .httpError).state p2 pr ar).planRequests =
         [(p2, c3pre.currentSim.xml_key)])) :=
  ⟨by decide, by decide, by decide,
    c4_apply_error c3pre "tweak" ["edit-1"] (by decide) (by decide) (by decide)⟩

/-- C6: an empty edit plan (absent or empty `edits` field) causes no
    `apply_edits` request, leaves `currentSim` untouched, does not
    trigger a reset, and returns the pipeline to idle. -/
theorem c6_empty_plan (st : RefineState) (prompt : String)
    (edits : Option (List Edit)) (ar : ApplyResponse)
    (hp : ¬ prompt = "") (hr : st.isRefining = false)
    (he : emptyPlan edits = true) :
    (handleRefineSubmit st prompt (.ok edits) ar).applyRequests = [] ∧
    (handleRefineSubmit st prompt (.ok edits) ar).state.currentSim = st.currentSim ∧
    (handleRefineSubmit st prompt (.ok edits) ar).state.isRefining = false ∧
    (handleRefineSubmit st prompt (.ok edits) ar).state.resetTrigger = st.resetTrigger := by
  simp [handleRefineSubmit, hp, hr, he]

/-- Witness for C6 with an empty plan response. -/
theorem c6_empty_plan_witness :
    ¬ "tweak" = "" ∧ c3pre.isRefining = false ∧ emptyPlan (some []) = true ∧
    ((handleRefineSubmit c3pre "tweak" (.ok (some [])) .httpError).applyRequests = [] ∧
     (handleRefineSubmit c3pre "tweak" (.ok (some [])) .httpError).state.currentSim = c3pre.currentSim ∧
     (handleRefineSubmit c3pre "tweak" (.ok (some [])) .httpError).state.isRefining = false ∧
     (handleRefineSubmit c3pre "tweak" (.ok (some [])) .httpError).state.resetTrigger = c3pre.resetTrigger) :=
  ⟨by decide, by decide, by decide,
    c6_empty_plan c3pre "tweak" (some []) .httpError (by decide) (by decide) (by decide)⟩

/-- C3 counterexample: a successful apply whose response rotates the
    key to "key-1" leaves the client on the pre-apply key "key-0", and
    the next plan request is sent with "key-0", not "key-1". -/
theorem c3_counterexample :
    c3out.state.currentSim.xml_key = "key-0" ∧
    ¬ c3out.state.currentSim.xml_key = "key-1" ∧
    (handleRefineSubmit c3out.state "again" (.ok (some ["edit-2"])) .httpError).planRequests =
      [("again", "key-0")] := by
  refine ⟨rfl, by decide, rfl⟩

/-- C3 amended: after a successful apply the document and simulation id
    are replaced from the response, but the revision key is kept as the
    pre-apply key; every subsequent request plans against that same
    pre-apply key (the rotated key in the response is not tracked). -/
theorem c3_amended (st : RefineState) (prompt : String) (es : List Edit)
    (sid xml k2 : String)
    (hp : ¬ prompt = "") (hr : st.isRefining = false) (hne : ¬ es = []) :
    (handleRefineSubmit st prompt (.ok (some es)) (.ok sid xml k2)).state.currentSim =
      { simulation_id := sid, model_xml := xml, xml_key := st.currentSim.xml_key } ∧
    (handleRefineSubmit st prompt (.ok (some es)) (.ok sid xml k2)).state.isRefining = false ∧
    (∀ p2 pr ar, ¬ p2 = "" →
      (handleRefineSubmit
        (handleRefineSubmit st prompt (.ok (some es)) (.ok sid xml k2)).state p2 pr ar).planRequests =
        [(p2, st.currentSim.xml_key)]) := by
  cases es with
  | nil => exact absurd rfl hne
  | cons a as =>
      have hstate :
          (handleRefineSubmit st prompt (.ok (some (a :: as))) (.ok sid xml k2)).state =
            { currentSim :=
                { simulation_id := sid, model_xml := xml, xml_key := st.currentSim.xml_key }
              isRefining := false
              resetTrigger := st.resetTrigger + 1 } := by
        simp [handleRefineSubmit, hp, hr, emptyPlan]
      refine ⟨by rw [hstate], by rw [hstate], ?_⟩
      intro p2 pr ar hp2
      rw [hstate]
      exact planRequests_of_accepted _ p2 pr ar hp2 rfl

/-- Witness for the amended C3 on the concrete scenario. -/
theorem c3_amended_witness :
    ¬ "make the legs stronger" = "" ∧ c3pre.isRefining = false ∧
    ¬ ["edit-1"] = ([] : List Edit) ∧
    ((handleRefineSubmit c3pre "make the legs stronger"
        (.ok (some ["edit-1"])) (.ok "sim-2" "<mujoco1/>" "key-1")).state.currentSim =
      { simulation_id := "sim-2", model_xml := "<mujoco1/>", xml_key := c3pre.currentSim.xml_key } ∧
     (handleRefineSubmit c3pre "make the legs stronger"
        (.ok (some ["edit-1"])) (.ok "sim-2" "<mujoco1/>" "key-1")).state.isRefining = false ∧
     (∀ p2 pr ar, ¬ p2 = "" →
       (handleRefineSubmit
         (handleRefineSubmit c3pre "make the legs stronger"
           (.ok (some ["edit-1"])) (.ok "sim-2" "<mujoco1/>" "key-1")).state p2 pr ar).planRequests =
         [(p2, c3pre.currentSim.xml_key)])) :=
  ⟨by decide, by decide, by decide,
    c3_amended c3pre "make the legs stronger" ["edit-1"] "sim-2" "<mujoco1/>" "key-1"
      (by decide) (by decide) (by decide)⟩

/-! ## Helper lemmas about the machine -/

theorem sendRunCommand_isRunning (st : SysState) :
    (sendRunCommand st).isRunning = st.isRunning := by
  rcases hcur : st.current with _ | c <;> simp [sendRunCommand, hcur] <;> split <;> simp

theorem sendRunCommand_data (st : SysState) :
    (sendRunCommand st).data = st.data := by
  rcases hcur : st.current with _ | c <;> simp [sendRunCommand, hcur] <;> split <;> simp

theorem sendRunCommand_current (st : SysState) :
    (sendRunCommand st).current = st.current := by
  rcases hcur : st.current with _ | c <;> simp [sendRunCommand, hcur] <;> split <;> simp [hcur]

theorem sendRunCommand_currentState (st : SysState) :
    (sendRunCommand st).currentState = st.currentState := by
  rcases hcur : st.current with _ | c <;> simp [sendRunCommand, hcur] <;> split <;> simp

theorem sendRunCommand_nextId (st : SysState) :
    (sendRunCommand st).nextId = st.nextId := by
  rcases hcur : st.current with _ | c <;> simp [sendRunCommand, hcur] <;> split <;> simp

theorem stopRunning_isRunning (st : SysState) (m : String) :
    (stopRunning st m).isRunning = false := by
  by_cases h : st.isRunning = true <;>
    simp [stopRunning, h, sendRunCommand_isRunning]

theorem stopRunning_data (st : SysState) (m : String) :
    (stopRunning st m).data = st.data := by
  by_cases h : st.isRunning = true <;>
    simp [stopRunning, h, sendRunCommand_data]

theorem stopRunning_current (st : SysState) (m : String) :
    (stopRunning st m).current = st.current := by
  by_cases h : st.isRunning = true <;>
    simp [stopRunning, h, sendRunCommand_current]

theorem stopRunning_currentState (st : SysState) (m : String) :
    (stopRunning st m).currentState = st.currentState := by
  by_cases h : st.isRunning = true <;>
    simp [stopRunning, h, sendRunCommand_currentState]

theorem stopRunning_nextId (st : SysState) (m : String) :
    (stopRunning st m).nextId = st.nextId := by
  by_cases h : st.isRunning = true <;>
    simp [stopRunning, h, sendRunCommand_nextId]

theorem runConnectEffect_isRunning (st : SysState) :
    (runConnectEffect st).isRunning = st.isRunning := by
  by_cases h : st.simulationId = "" <;> simp [runConnectEffect, h]

theorem ingest_isRunning_false (st : SysState) (f : Frame)
    (h : st.isRunning = false) : (ingest st f).isRunning = false := by
  cases f with
  | malformed => simpa [ingest] using h
  | parsed p =>
      rcases hep : p.episode with _ | e <;> simp [ingest, hep]
      · split
        · exact stopRunning_isRunning _ _
        · split
          · exact stopRunning_isRunning _ _
          · exact h
      · exact h

theorem ingest_nextId (st : SysState) (f : Frame) :
    (ingest st f).nextId = st.nextId := by
  cases f with
  | malformed => simp [ingest]
  | parsed p =>
      rcases hep : p.episode with _ | e <;> simp [ingest, hep]
      split
      · exact stopRunning_nextId _ _
      · split
        · exact stopRunning_nextId _ _
        · rfl

theorem ingest_current (st : SysState) (f : Frame) :
    (ingest st f).current = st.current := by
  cases f with
  | malformed => simp [ingest]
  | parsed p =>
      rcases hep : p.episode with _ | e <;> simp [ingest, hep]
      split
      · exact stopRunning_current _ _
      · split
        · exact stopRunning_current _ _
        · rfl

theorem ingest_currentState (st : SysState) (f : Frame) :
    (ingest st f).currentState = st.currentState := by
  cases f with
  | malformed => simp [ingest]
  | parsed p =>
      rcases hep : p.episode with _ | e <;> simp [ingest, hep]
      split
      · exact stopRunning_currentState _ _
      · split
        · exact stopRunning_currentState _ _
        · rfl

/-- Delivering a telemetry-point frame on the open current socket
    appends exactly that point. -/
theorem step_point (st : SysState) (i : Nat) (p : TelemetryPoint)
    (hc : st.current = some i) (ho : st.currentState = .opened) :
    step st (.wsMessage i (pointFrame p)) =
      { st with data := st.data ++ [p], statusMessage := episodeMsg p.episode } := by
  simp [step, hc, ho, ingest, pointFrame]

/-- Delivering the completion frame on the open current socket runs the
    terminal branch. -/
theorem step_complete (st : SysState) (i : Nat)
    (hc : st.current = some i) (ho : st.currentState = .opened) :
    step st (.wsMessage i completeFrame) = stopRunning st "Training Complete!" := by
  simp [step, hc, ho, ingest, completeFrame]

theorem stale_drop (o : Nat) (s : SysState) (f : Frame)
    (h : ¬ s.current = some o) : step s (.wsMessage o f) = s := by
  simp [step, h]

theorem stale_runConnectEffect (o : Nat) (s : SysState) (h : StaleId o s) :
    StaleId o (runConnectEffect s) := by
  obtain ⟨h1, h2⟩ := h
  by_cases hid : s.simulationId = "" <;>
    simp [runConnectEffect, StaleId, hid]
  · exact ⟨h1, fun heq => h2 heq⟩
  · exact ⟨Nat.lt_succ_of_lt h1, fun heq => Nat.lt_irrefl o (heq ▸ h1)⟩

theorem stale_step (o : Nat) (s : SysState) (e : Event) (h : StaleId o s) :
    StaleId o (step s e) := by
  cases e with
  | attach id =>
      by_cases hsame : id = s.simulationId
      · simpa [step, hsame] using h
      · simp only [step, if_neg hsame]
        exact stale_runConnectEffect o { s with simulationId := id } h
  | reset => exact stale_runConnectEffect o s h
  | wsOpen i =>
      simp only [step]
      split
      · exact h
      · exact h
  | wsMessage i f =>
      simp only [step]
      split
      · refine ⟨?_, ?_⟩
        · rw [ingest_nextId]; exact h.1
        · rw [ingest_current]; exact h.2
      · exact h
  | wsError i =>
      simp only [step]
      split
      · exact h
      · exact h
  | setRunning b =>
      simp only [step]
      split
      · exact h
      · refine ⟨?_, ?_⟩
        · rw [sendRunCommand_nextId]; exact h.1
        · rw [sendRunCommand_current]; exact h.2

theorem stale_run (o : Nat) (s : SysState) (es : List Event) (h : StaleId o s) :
    StaleId o (run s es) := by
  induction es generalizing s with
  | nil => exact h
  | cons e rest ih => exact ih (step s e) (stale_step o s e h)

/-! ## Claims C1, C2, C9, C10: telemetry ingestion -/

/-- C1 counterexample: ingesting frames with episodes [0,1,1,3,2,4]
    after mount and open yields series episodes [0,0,1,1,3,2,4] (the
    seed point plus every frame, duplicates and regressions included),
    not the claimed [0,1,3,4], and the episode values are not
    non-decreasing. -/
theorem c1_counterexample :
    c1state.data.map TelemetryPoint.episode = [0, 0, 1, 1, 3, 2, 4] ∧
    ¬ c1state.data.map TelemetryPoint.episode = [0, 1, 3, 4] ∧
    nondecreasingB (c1state.data.map TelemetryPoint.episode) = false := by
  decide

/-- C1 amended: the `onmessage` handler has no monotonicity check:
    every parsed frame with an `episode` field is appended to the
    series in arrival order, whatever its episode value. -/
theorem c1_amended (st : SysState) (i : Nat) (ps : List TelemetryPoint)
    (hc : st.current = some i) (ho : st.currentState = .opened) :
    (run st (ps.map fun p => Event.wsMessage i (pointFrame p))).data = st.data ++ ps := by
  induction ps generalizing st with
  | nil => simp [run]
  | cons p rest ih =>
      simp only [List.map_cons, run, List.foldl_cons]
      rw [step_point st i p hc ho]
      have h2 := ih { st with data := st.data ++ [p], statusMessage := episodeMsg p.episode }
        hc ho
      simp only [run] at h2
      rw [h2]
      simp

/-- Witness for the amended C1 on the specification example frames. -/
theorem c1_amended_witness :
    (step (initialSys "sim-1") (.wsOpen 0)).current = some 0 ∧
    (step (initialSys "sim-1") (.wsOpen 0)).currentState = .opened ∧
    (run (step (initialSys "sim-1") (.wsOpen 0))
        (c1frames.map fun p => Event.wsMessage 0 (pointFrame p))).data =
      (step (initialSys "sim-1") (.wsOpen 0)).data ++ c1frames :=
  ⟨by decide, by decide, c1_amended _ 0 c1frames (by decide) (by decide)⟩

/-- C2 counterexample: after ingesting the completion frame, a later
    episode frame is still appended (series grows from the seed point
    to two points), contradicting the claimed Ignored outcome. -/
theorem c2_counterexample :
    c2state.data.map TelemetryPoint.episode = [0, 2] ∧
    ¬ c2state.data = getInitialData := by
  decide

/-- C2 amended: a terminal completion frame turns the running flag off
    and leaves the series untouched, but ingestion is not frozen: a
    subsequent episode frame on the same open socket is still
    appended. -/
theorem c2_amended (st : SysState) (i : Nat) (p : TelemetryPoint)
    (hc : st.current = some i) (ho : st.currentState = .opened) :
    (step st (.wsMessage i completeFrame)).isRunning = false ∧
    (step st (.wsMessage i completeFrame)).data = st.data ∧
    (step (step st (.wsMessage i completeFrame))
        (.wsMessage i (pointFrame p))).data = st.data ++ [p] := by
  rw [step_complete st i hc ho]
  refine ⟨stopRunning_isRunning _ _, stopRunning_data _ _, ?_⟩
  have hc1 : (stopRunning st "Training Complete!").current = some i := by
    rw [stopRunning_current]; exact hc
  have ho1 : (stopRunning st "Training Complete!").currentState = .opened := by
    rw [stopRunning_currentState]; exact ho
  rw [step_point _ i p hc1 ho1]
  simp [stopRunning_data]

/-- Witness for the amended C2 after mount and open. -/
theorem c2_amended_witness :
    c10state.current = some 0 ∧
    c10state.currentState = .opened ∧
    ((step c10state (.wsMessage 0 completeFrame)).isRunning = false ∧
     (step c10state (.wsMessage 0 completeFrame)).data = c10state.data ∧
     (step (step c10state (.wsMessage 0 completeFrame))
         (.wsMessage 0 (pointFrame { episode := 2, reward := 5, length := 12 }))).data =
       c10state.data ++ [{ episode := 2, reward := 5, length := 12 }]) :=
  ⟨by decide, by decide,
    c2_amended c10state 0 { episode := 2, reward := 5, length := 12 } (by decide) (by decide)⟩

/-- C9: a frame that fails to parse as JSON is caught and discarded
    with no change whatsoever to the component state. -/
theorem c9_malformed_noop (st : SysState) (i : Nat) :
    step st (.wsMessage i .malformed) = st := by
  simp [step, ingest]

/-- C10 counterexample: a parsed frame whose `error` field holds the
    empty string (a falsy value) does not pause: the running flag stays
    true. -/
theorem c10_counterexample :
    c10state.isRunning = true ∧
    (step c10state (.wsMessage 0 errorEmptyFrame)).isRunning = true := by
  decide

/-- C10 amended: a parsed frame with no `episode` field whose `status`
    is "complete" or whose `error` field is a truthy (non-empty)
    string turns the running flag off, and the flag then stays off
    under every event other than a user command to run. -/
theorem c10_amended (st : SysState) (i : Nat) (p : ParsedFrame)
    (hc : st.current = some i) (ho : st.currentState = .opened)
    (hep : p.episode = none)
    (hterm : p.status = some "complete" ∨ truthy p.error = true) :
    (step st (.wsMessage i (.parsed p))).isRunning = false ∧
    (∀ s : SysState, ∀ e : Event, s.isRunning = false →
      (∀ b, e = .setRunning b → b = false) → (step s e).isRunning = false) := by
  constructor
  · simp only [step, hc, ho, and_self, if_pos, ingest, hep]
    by_cases hs : p.status = some "complete"
    · simp only [hs, if_pos]
      exact stopRunning_isRunning _ _
    · rcases hterm with h | h
      · exact absurd h hs
      · simp only [hs, if_neg, h, if_pos, if_true]
        exact stopRunning_isRunning _ _
  · intro s e hs0 hb
    cases e with
    | attach id =>
        by_cases hsame : id = s.simulationId
        · simpa [step, hsame] using hs0
        · simp only [step, if_neg hsame]
          rw [runConnectEffect_isRunning]
          exact hs0
    | reset =>
        show (runConnectEffect s).isRunning = false
        rw [runConnectEffect_isRunning]; exact hs0
    | wsOpen i =>
        simp only [step]
        split
        · exact hs0
        · exact hs0
    | wsMessage i f =>
        simp only [step]
        split
        · exact ingest_isRunning_false s f hs0
        · exact hs0
    | wsError i =>
        simp only [step]
        split
        · exact hs0
        · exact hs0
    | setRunning b =>
        have hbf : b = false := hb b rfl
        simp only [step]
        split
        · exact hs0
        · rw [sendRunCommand_isRunning]
          exact hbf

/-- Witness for the amended C10 with a non-empty error frame. -/
theorem c10_amended_witness :
    c10state.current = some 0 ∧
    c10state.currentState = .opened ∧
    (({ episode := none, reward := 0, length := 0,
        status := none, error := some "training crashed" } : ParsedFrame).episode = none) ∧
    ((step c10state (.wsMessage 0 (.parsed
        { episode := none, reward := 0, length := 0,
          status := none, error := some "training crashed" }))).isRunning = false ∧
     (∀ s : SysState, ∀ e : Event, s.isRunning = false →
       (∀ b, e = .setRunning b → b = false) → (step s e).isRunning = false)) :=
  ⟨by decide, by decide, rfl,
    c10_amended c10state 0 _ (by decide) (by decide) rfl (Or.inr (by decide))⟩

/-! ## Claims C7, C8: connection lifecycle -/

/-- C7 counterexample: pause while the socket is still CONNECTING, then
    the socket opens: the single command frame sent on the Open
    transition says "run" (the captured value) although the run state
    in effect at that moment is Pause. -/
theorem c7_counterexample :
    c7state.isRunning = false ∧
    c7state.sent = [{ inst := 0, command := "run" }] ∧
    ¬ c7state.sent = [{ inst := 0, command := "pause" }] := by
  decide

/-- C7 amended: on the transition of the current socket into OPEN,
    exactly one command frame is sent, and it encodes the `isRunning`
    value captured when the connection effect created the socket (which
    equals the run state at creation time, not necessarily the run
    state at the moment Open occurred). -/
theorem c7_amended (st : SysState) (i : Nat)
    (hc : st.current = some i) (ho : st.currentState = .connecting) :
    (step st (.wsOpen i)).sent =
      st.sent ++ [{ inst := i, command := if st.capturedRunning then "run" else "pause" }] ∧
    (∀ s : SysState, ¬ s.simulationId = "" →
      (runConnectEffect s).capturedRunning = s.isRunning) := by
  constructor
  · simp [step, hc, ho]
  · intro s hid
    simp [runConnectEffect, hid]

/-- Witness for the amended C7 at the freshly mounted state. -/
theorem c7_amended_witness :
    (initialSys "sim-1").current = some 0 ∧
    (initialSys "sim-1").currentState = .connecting ∧
    ((step (initialSys "sim-1") (.wsOpen 0)).sent =
      (initialSys "sim-1").sent ++
        [{ inst := 0,
           command := if (initialSys "sim-1").capturedRunning then "run" else "pause" }] ∧
     (∀ s : SysState, ¬ s.simulationId = "" →
       (runConnectEffect s).capturedRunning = s.isRunning)) :=
  ⟨by decide, by decide, c7_amended _ 0 (by decide) (by decide)⟩

/-- C8 counterexample: an explicit reset sets the series back to the
    one-point seed `getInitialData`, not to the empty series. -/
theorem c8_counterexample :
    c8state.data = getInitialData ∧ ¬ c8state.data = [] := by
  decide

/-- C8 amended: a reset (re-run of the connection effect) resets the
    series to the one-point seed, restores the connecting status
    message, creates a fresh CONNECTING socket, and the superseded
    socket is closed: frames addressed to it are discarded at every
    later point, leaving the state unchanged. -/
theorem c8_amended (st : SysState) (o : Nat)
    (hc : st.current = some o) (hb : o < st.nextId)
    (hid : ¬ st.simulationId = "") :
    (step st .reset).data = getInitialData ∧
    ¬ (step st .reset).data = [] ∧
    (step st .reset).statusMessage = "Connecting to training server..." ∧
    (step st .reset).currentState = .connecting ∧
    (∀ es : List Event, ∀ f : Frame,
      step (run (step st .reset) es) (.wsMessage o f) = run (step st .reset) es) := by
  have hstale : StaleId o (step st .reset) := by
    show StaleId o (runConnectEffect st)
    simp only [runConnectEffect, StaleId, if_neg hid]
    refine ⟨Nat.lt_succ_of_lt hb, ?_⟩
    simp only [Option.some.injEq]
    exact fun heq => Nat.lt_irrefl o (heq ▸ hb)
  refine ⟨?_, ?_, ?_, ?_, ?_⟩
  · show (runConnectEffect st).data = getInitialData
    simp [runConnectEffect, hid]
  · show ¬ (runConnectEffect st).data = []
    simp [runConnectEffect, hid, getInitialData]
  · show (runConnectEffect st).statusMessage = "Connecting to training server..."
    simp [runConnectEffect, hid]
  · show (runConnectEffect st).currentState = .connecting
    simp [runConnectEffect, hid]
  · intro es f
    exact stale_drop o _ f (stale_run o _ es hstale).2

/-- Witness for the amended C8 after mount, open and one ingested
    point. -/
theorem c8_amended_witness :
    c10state.current = some 0 ∧
    0 < c10state.nextId ∧
    ¬ c10state.simulationId = "" ∧
    ((step c10state .reset).data = getInitialData ∧
     ¬ (step c10state .reset).data = [] ∧
     (step c10state .reset).statusMessage = "Connecting to training server..." ∧
     (step c10state .reset).currentState = .connecting ∧
     (∀ es : List Event, ∀ f : Frame,
       step (run (step c10state .reset) es) (.wsMessage 0 f) = run (step c10state .reset) es)) :=
  ⟨by decide, by decide, by decide,
    c8_amended c10state 0 (by decide) (by decide) (by decide)⟩

end SimulaAI
